import Mathlib

/-
Verification of the Excel chatbot backend.

Shallow embedding of the parts of the code the claims are about:
the user model (login lockout, usage limits) from backend/src/models/User.js,
the login route from backend/src/routes/auth.js, the chat-message route with
its Excel-domain gate from backend/src/routes/chat.js, the CSRF middleware,
and the in-memory demo server handlers (registration, chat history, demo
keyword matcher) from backend/src/server-simple.js and its demo variant.

Time is modelled as milliseconds (Nat); bcrypt comparison is modelled as
string equality (correct candidate iff equal to the stored password); the
day used by usage tracking (toDateString) is modelled as a day number.
-/

namespace ExcelChatbot

/-- Boolean test that the first character list is an initial segment of the
second; building block for the JS includes scan. -/
def leadMatch : List Char → List Char → Bool
  | [], _ => true
  | _ :: _, [] => false
  | a :: as, b :: bs => a == b && leadMatch as bs

/-- Boolean substring containment on character lists: containsSub pat s
models the JS expression s.includes(pat). -/
def containsSub : List Char → List Char → Bool
  | pat, [] => pat.isEmpty
  | pat, c :: rest => leadMatch pat (c :: rest) || containsSub pat rest

/-- ASCII lower-casing of one character, modelling what
String.prototype.toLowerCase does on the inputs appearing in this
development (ASCII letters change, CJK characters are unchanged). -/
def asciiLower (c : Char) : Char :=
  if 65 ≤ c.toNat ∧ c.toNat ≤ 90 then Char.ofNat (c.toNat + 32) else c

/-- Lower-casing of a character list. -/
def lowerL (l : List Char) : List Char := l.map asciiLower

/-- JS truthiness of a string: every string except the empty one is truthy. -/
def jsTruthy (s : String) : Bool := !(s == "")

/-- JS expression a or-else b on optional strings: a short-circuits only
when present and truthy. -/
def jsOr (a b : Option String) : Option String :=
  match a with
  | some s => if jsTruthy s then some s else b
  | none => b

/-! ## User model (backend/src/models/User.js) -/

/-- Role enum of the user schema. -/
inductive Role
  | user
  | premium
  | admin
deriving DecidableEq, Repr

/-- State of one user record: the fields of the mongoose user schema that
the claims touch.  lockUntil is a millisecond timestamp when set;
lastResetDay models usage.lastResetDate at toDateString granularity. -/
structure UserState where
  password : String
  role : Role := Role.user
  isActive : Bool := true
  isEmailVerified : Bool := false
  loginAttempts : Nat := 0
  lockUntil : Option Nat := none
  lastLogin : Option Nat := none
  questionsAsked : Nat := 0
  dailyLimit : Nat := 100
  lastResetDay : Nat := 0
deriving DecidableEq, Repr

/-- Virtual isLocked of the user schema:
true iff lockUntil is set and lockUntil > Date.now(). -/
def isLocked (u : UserState) (now : Nat) : Bool :=
  match u.lockUntil with
  | some t => decide (now < t)
  | none => false

/-- Core of incLoginAttempts when the expired-lock branch is not taken:
increment the counter, and on reaching 5 failures while not locked set
lockUntil to now plus two hours (7200000 ms). -/
def incLoginAttemptsCore (u : UserState) (now : Nat) : UserState :=
  let bumped := { u with loginAttempts := u.loginAttempts + 1 }
  if 5 ≤ u.loginAttempts + 1 ∧ isLocked u now = false then
    { bumped with lockUntil := some (now + 7200000) }
  else bumped

/-- incLoginAttempts of User.js: if a lock exists and is expired
(lockUntil < now) reset the counter to 1 and clear the lock, otherwise
increment and possibly set the two-hour lock. -/
def incLoginAttempts (u : UserState) (now : Nat) : UserState :=
  match u.lockUntil with
  | some t =>
      if t < now then { u with loginAttempts := 1, lockUntil := none }
      else incLoginAttemptsCore u now
  | none => incLoginAttemptsCore u now

/-- resetLoginAttempts of User.js: unset loginAttempts (reads as the
schema default 0) and lockUntil, record lastLogin. -/
def resetLoginAttempts (u : UserState) (now : Nat) : UserState :=
  { u with loginAttempts := 0, lockUntil := none, lastLogin := some now }

/-- incrementUsage of User.js: reset the per-day counter when the stored
last-reset day differs from today, then add one. -/
def incrementUsage (u : UserState) (today : Nat) : UserState :=
  let u0 :=
    if today ≠ u.lastResetDay then
      { u with questionsAsked := 0, lastResetDay := today }
    else u
  { u0 with questionsAsked := u0.questionsAsked + 1 }

/-- canAskQuestion of User.js: the per-day counter is strictly below the
role-scaled limit (premium gets five times the base daily limit). -/
def canAskQuestion (u : UserState) : Bool :=
  let limit := if u.role = Role.premium then u.dailyLimit * 5 else u.dailyLimit
  decide (u.questionsAsked < limit)

/-! ## Login route (backend/src/routes/auth.js, POST /login) -/

/-- Outcome of one POST /login request, matching the HTTP statuses of the
route: 401, 423, 403, 200. -/
inductive LoginResult
  | authenticationFailed
  | accountLocked
  | emailNotVerified
  | success
deriving DecidableEq, Repr

/-- One POST /login against a single user record: inactive users are not
found by the query (401); a live lock answers 423 before the password is
checked; a wrong password increments the failure counter (401); an
unverified email answers 403; otherwise the attempt counter is reset and
the login succeeds. -/
def loginStep (u : UserState) (candidate : String) (now : Nat) :
    LoginResult × UserState :=
  if u.isActive = false then (LoginResult.authenticationFailed, u)
  else if isLocked u now then (LoginResult.accountLocked, u)
  else if candidate ≠ u.password then
    (LoginResult.authenticationFailed, incLoginAttempts u now)
  else if u.isEmailVerified = false then (LoginResult.emailNotVerified, u)
  else (LoginResult.success, resetLoginAttempts u now)

/-- A fresh, active, email-verified account with no recorded failures. -/
def mkUser (pw : String) : UserState :=
  { password := pw, isEmailVerified := true }

/-- User states reachable through the model's operations: a registered
account (unverified, counters at the schema defaults), email verification,
and login attempts at arbitrary times with arbitrary candidate passwords
(covering failed-login increment, lock set, lock-expiry reset and
successful-login reset). -/
inductive Reachable : UserState → Prop
  | register (pw : String) : Reachable { password := pw }
  | verifyEmail {u : UserState} :
      Reachable u → Reachable { u with isEmailVerified := true }
  | login {u : UserState} (pw : String) (now : Nat) :
      Reachable u → Reachable (loginStep u pw now).2

/-! ## Chat message route (backend/src/routes/chat.js, POST /message) -/

/-- Fixed Excel-domain keyword list of the chat route. -/
def excelKeywords : List String :=
  ["excel", "spreadsheet", "formula", "function", "cell", "row", "column",
   "pivot", "chart", "macro", "vba", "worksheet", "workbook", "sum",
   "vlookup", "hlookup", "if", "countif", "sumif", "index", "match",
   "関数", "エクセル", "数式", "ピボット", "グラフ", "マクロ"]

/-- Excel-keyword gate of the chat route: some keyword is contained in the
lower-cased message. -/
def hasExcelKeywords (message : String) : Bool :=
  excelKeywords.any fun k => containsSub k.data (lowerL message.data)

/-- Fixed out-of-domain rejection message of the chat route. -/
def outOfDomainMessage : String :=
  "This chatbot specializes in Excel questions only. Please ask questions related to Excel functions, features, or best practices."

/-- Outcome of one POST /api/chat/message request, matching the HTTP
statuses 429, 400 and 200 of the route. -/
inductive ChatOutcome
  | rateLimited
  | outOfDomain (message : String)
  | answered (knowledgeResults : Nat)
deriving DecidableEq, Repr

/-- One POST /api/chat/message for an authenticated user: the usage gate
answers 429 when canAskQuestion fails; then the Excel-keyword gate answers
400 with the fixed out-of-domain message before any knowledge search;
otherwise the knowledge base is searched (search models
searchExcelKnowledge result counts) and generateAIResponse increments the
usage counter. -/
def chatMessageRoute (search : String → Nat) (u : UserState)
    (message : String) (today : Nat) : ChatOutcome × UserState :=
  if canAskQuestion u = false then (ChatOutcome.rateLimited, u)
  else if hasExcelKeywords message = false then
    (ChatOutcome.outOfDomain outOfDomainMessage, u)
  else (ChatOutcome.answered (search message), incrementUsage u today)

/-! ## CSRF middleware (backend/src/middleware/csrf.js, csrfProtection) -/

/-- The request fields csrfProtection reads: the method, the token from
header, body or query, and the session (a possible logged-in user id and a
possible stored CSRF secret). -/
structure ApiRequest where
  method : String
  csrfHeaderToken : Option String := none
  csrfBodyToken : Option String := none
  csrfQueryToken : Option String := none
  sessionUserId : Option String := none
  sessionCsrfSecret : Option String := none
deriving DecidableEq, Repr

/-- Result of the csrfProtection middleware: safe methods skip the check,
unsafe ones either pass verification (next is called, the handler runs) or
are rejected with 403 Forbidden (the handler does not run). -/
inductive CsrfResult
  | skipped
  | verified
  | forbidden
deriving DecidableEq, Repr

/-- Safe methods of csrfProtection. -/
def safeMethods : List String := ["GET", "HEAD", "OPTIONS"]

/-- The effective CSRF secret: the one stored in the session, or a freshly
generated one (tokens.secretSync, supplied as freshSecret). -/
def effectiveSecret (req : ApiRequest) (freshSecret : String) : String :=
  req.sessionCsrfSecret.getD freshSecret

/-- The token csrfProtection extracts: header, else body, else query,
through JS falsy chaining. -/
def extractedToken (req : ApiRequest) : Option String :=
  jsOr req.csrfHeaderToken (jsOr req.csrfBodyToken req.csrfQueryToken)

/-- Whether the extracted token verifies against the effective secret;
verify models tokens.verify of the csrf library. -/
def csrfTokenValid (verify : String → String → Bool)
    (freshSecret : String) (req : ApiRequest) : Bool :=
  match extractedToken req with
  | none => false
  | some t => jsTruthy t && verify (effectiveSecret req freshSecret) t

/-- csrfProtection: skip safe methods; otherwise reject with 403 unless a
token is present and verifies against the session's CSRF secret. -/
def csrfProtection (verify : String → String → Bool)
    (freshSecret : String) (req : ApiRequest) : CsrfResult :=
  if safeMethods.contains req.method then CsrfResult.skipped
  else if csrfTokenValid verify freshSecret req then CsrfResult.verified
  else CsrfResult.forbidden

/-! ## In-memory maps of the demo servers -/

/-- Association map mirroring the JS Map used by the demo servers; get of
a missing key is none. -/
def amGet {β : Type} : List (String × β) → String → Option β
  | [], _ => none
  | (k2, v) :: rest, k => if k2 = k then some v else amGet rest k

/-- Map.set: replace the entry of an existing key, else append. -/
def amSet {β : Type} : List (String × β) → String → β → List (String × β)
  | [], k, v => [(k, v)]
  | (k2, v2) :: rest, k, v =>
      if k2 = k then (k, v) :: rest else (k2, v2) :: amSet rest k v

/-- Map.delete: remove the entries of a key (a no-op on a missing key). -/
def amDel {β : Type} : List (String × β) → String → List (String × β)
  | [], _ => []
  | (k2, v2) :: rest, k =>
      if k2 = k then amDel rest k else (k2, v2) :: amDel rest k

/-! ## Chat history endpoints (backend/src/server-simple.js) -/

/-- One stored chat turn: id (Date.now), type (user or bot), text, the
formula list and the optional VBA snippet of bot turns. -/
structure ChatMsg where
  mid : Nat
  mtype : String
  message : String
  formulas : List String := []
  vbaCode : Option String := none
deriving DecidableEq, Repr

/-- The chatHistory store: one message list per identity key. -/
abbrev HistMap : Type := List (String × List ChatMsg)

/-- Identity used by the chat endpoints: req.session.userId or else the
shared literal guest. -/
def identityOf (sessionUserId : Option String) : String :=
  match sessionUserId with
  | some s => if jsTruthy s then s else "guest"
  | none => "guest"

/-- Result of POST /api/chat/message on the demo server: 400 on a missing
message, else 200 with the generated reply. -/
inductive PostResult
  | badRequest
  | ok (response : String) (formulas : List String) (vbaCode : Option String)
deriving DecidableEq, Repr

/-- POST /api/chat/message of server-simple.js: resolve the identity
(guest fallback), generate the reply (ai models ExcelAI.generateResponse),
append the user turn and the bot turn to that identity's history and trim
it to the most recent 100 entries.  The route performs no CSRF check. -/
def postChatMessage (ai : String → String × List String × Option String)
    (hist : HistMap) (sessionUserId : Option String) (message : String)
    (now : Nat) : PostResult × HistMap :=
  if jsTruthy message = false then (PostResult.badRequest, hist)
  else
    let userId := identityOf sessionUserId
    let r := ai message
    let h0 := (amGet hist userId).getD []
    let h1 := h0 ++
      [{ mid := now, mtype := "user", message := message },
       { mid := now + 1, mtype := "bot", message := r.1,
         formulas := r.2.1, vbaCode := r.2.2 }]
    let h2 := if 100 < h1.length then h1.drop (h1.length - 100) else h1
    (PostResult.ok r.1 r.2.1 r.2.2, amSet hist userId h2)

/-- GET /api/chat/history: always status 200, with the identity's stored
list or the empty list. -/
def getHistory (hist : HistMap) (sessionUserId : Option String) :
    Nat × List ChatMsg :=
  (200, (amGet hist (identityOf sessionUserId)).getD [])

/-- DELETE /api/chat/history: always status 200, removing the identity's
entry from the store. -/
def deleteHistory (hist : HistMap) (sessionUserId : Option String) :
    Nat × HistMap :=
  (200, amDel hist (identityOf sessionUserId))

/-! ## Registration (backend/src/server-simple.js, POST /api/auth/register) -/

/-- One user record of the demo in-memory store. -/
structure SimpleUser where
  uid : String
  username : String
  password : String
  email : Option String := none
  createdAt : Nat := 0
  displayName : String := ""
  excelLevel : String := "beginner"
deriving DecidableEq, Repr

/-- The demo users store, keyed by user id. -/
abbrev UsersMap : Type := List (String × SimpleUser)

/-- The session fields the demo server writes. -/
structure SimpleSession where
  isLoggedIn : Bool := false
  userId : Option String := none
  username : Option String := none
deriving DecidableEq, Repr

/-- Duplicate-username check of the register handler: some stored record
has this username. -/
def usernameTaken (users : UsersMap) (username : String) : Bool :=
  users.any fun kv => kv.2.username == username

/-- Validation error messages of the register handler. -/
def msgNeedBoth : String := "ユーザー名とパスワードが必要です"

/-- Message for a too-short username. -/
def msgName3 : String := "ユーザー名は3文字以上である必要があります"

/-- Message for a too-short password. -/
def msgPw6 : String := "パスワードは6文字以上である必要があります"

/-- Conflict message for a taken username. -/
def msgConflict : String := "このユーザー名は既に使用されています"

/-- Result of POST /api/auth/register on the demo server, with its HTTP
status. -/
inductive RegisterResult
  | validationError (message : String)
  | conflict (message : String)
  | created (user : SimpleUser)
deriving DecidableEq, Repr

/-- HTTP status of a register result: 400, 409 or 201. -/
def registerStatus : RegisterResult → Nat
  | RegisterResult.validationError _ => 400
  | RegisterResult.conflict _ => 409
  | RegisterResult.created _ => 201

/-- The record the register handler builds for a new user. -/
def mkSimpleUser (username password : String) (email : Option String)
    (newId : String) (now : Nat) : SimpleUser :=
  { uid := newId, username := username, password := password,
    email := jsOr email none, createdAt := now,
    displayName := username, excelLevel := "beginner" }

/-- POST /api/auth/register of server-simple.js: require username and
password, username at least 3 characters, password at least 6; reject a
taken username with 409 Conflict; otherwise create the record under a
fresh id (newId models the generated user id) and auto-login the session. -/
def registerSimple (users : UsersMap) (session : SimpleSession)
    (username password : String) (email : Option String) (newId : String)
    (now : Nat) : RegisterResult × UsersMap × SimpleSession :=
  if jsTruthy username = false || jsTruthy password = false then
    (RegisterResult.validationError msgNeedBoth, users, session)
  else if username.data.length < 3 then
    (RegisterResult.validationError msgName3, users, session)
  else if password.data.length < 6 then
    (RegisterResult.validationError msgPw6, users, session)
  else if usernameTaken users username then
    (RegisterResult.conflict msgConflict, users, session)
  else
    let newUser := mkSimpleUser username password email newId now
    (RegisterResult.created newUser, amSet users newId newUser,
     { isLoggedIn := true, userId := some newId, username := some username })

/-- GET /api/auth/me of server-simple.js: the stored user of a logged-in
session, or none (401). -/
def authMe (users : UsersMap) (session : SimpleSession) : Option SimpleUser :=
  if session.isLoggedIn then
    match session.userId with
    | some uid => if jsTruthy uid then amGet users uid else none
    | none => none
  else none

/-! ## Hardened registration (backend/src/routes/auth.js, POST /register) -/

/-- One persisted user record as the hardened register route creates it
(isEmailVerified starts false). -/
structure AuthUser where
  username : String
  email : String
  password : String
  isEmailVerified : Bool := false
deriving DecidableEq, Repr

/-- Existing-user check of the hardened route: findOne on email or
username. -/
def authUserTaken (store : List AuthUser) (username email : String) : Bool :=
  store.any fun u => u.email == email || u.username == username

/-- Result of the hardened POST /register: 409 Conflict or 201 Created
carrying the verificationRequired flag of the response body. -/
inductive AuthRegisterResult
  | conflict
  | created (verificationRequired : Bool)
deriving DecidableEq, Repr

/-- POST /register of routes/auth.js: reject a taken username or email
with 409; otherwise save the new (unverified) user and respond 201 with
verificationRequired true.  The handler never writes to the session, so
the session passes through unchanged. -/
def authRegister (store : List AuthUser) (username email password : String)
    (sessionUserId : Option String) :
    AuthRegisterResult × List AuthUser × Option String :=
  if authUserTaken store username email then
    (AuthRegisterResult.conflict, store, sessionUserId)
  else
    (AuthRegisterResult.created true,
     store ++ [{ username := username, email := email, password := password }],
     sessionUserId)

/-! ## Demo keyword matcher (demo server variant, POST /api/chat/message) -/

/-- One entry of the demo server's in-memory excelFunctions list;
fnSyntax holds the syntax field. -/
structure DemoFn where
  fid : String
  name : String
  category : String
  fnSyntax : String
  description : String
  examples : List (String × String × String) := []
deriving DecidableEq, Repr

/-- The SUM entry. -/
def sumEntry : DemoFn :=
  { fid := "1", name := "SUM", category := "MATH",
    fnSyntax := "SUM(number1, [number2], ...)",
    description := "数値の合計を計算します",
    examples :=
      [("=SUM(A1:A10)", "A1からA10の範囲の合計", "合計値"),
       ("=SUM(1,2,3,4,5)", "数値の直接指定", "15")] }

/-- The VLOOKUP entry. -/
def vlookupEntry : DemoFn :=
  { fid := "2", name := "VLOOKUP", category := "LOOKUP_REFERENCE",
    fnSyntax := "VLOOKUP(lookup_value, table_array, col_index_num, [range_lookup])",
    description := "垂直方向の検索を行い、対応する値を返します",
    examples :=
      [("=VLOOKUP(A2,C:F,2,FALSE)", "A2の値をC列で検索し、D列の値を返す", "対応する値")] }

/-- The IF entry. -/
def ifEntry : DemoFn :=
  { fid := "3", name := "IF", category := "LOGICAL",
    fnSyntax := "IF(logical_test, value_if_true, [value_if_false])",
    description := "条件に応じて異なる値を返します",
    examples :=
      [("=IF(A1>10,\"大\",\"小\")", "A1が10より大きい場合は「大」、そうでなければ「小」", "大 または 小")] }

/-- The demo excelFunctions list. -/
def demoExcelFunctions : List DemoFn := [sumEntry, vlookupEntry, ifEntry]

/-- The keyword 関数 tested against the lower-cased message. -/
def kwKansuu : String := "関数"

/-- The keyword excel tested against the lower-cased message. -/
def kwExcelLit : String := "excel"

/-- Fixed not-found reply of the demo matcher. -/
def demoNotFoundText : String :=
  "申し訳ございませんが、お探しの情報が見つかりませんでした。\nExcel関連のキーワードを使ってもう一度お試しください。\n\n例：\n• \x27SUM関数の使い方\x27\n• \x27VLOOKUPで検索したい\x27\n• \x27IF関数の条件分岐\x27\n"

/-- Result of the demo chat endpoint: 400 on a missing message, else 200
with the assembled reply and the matched entry count. -/
inductive DemoChatResult
  | badRequest
  | ok (response : String) (knowledgeResults : Nat)
deriving DecidableEq, Repr

/-- The demo matcher's filter: the lower-cased message contains the entry
name, or the entry description contains the whole message, or the message
contains 関数 or excel. -/
def demoMatches (lowerMessage : List Char) (f : DemoFn) : Bool :=
  containsSub (lowerL f.name.data) lowerMessage ||
  containsSub lowerMessage (lowerL f.description.data) ||
  containsSub kwKansuu.data lowerMessage ||
  containsSub kwExcelLit.data lowerMessage

/-- Reply block assembled for one matched entry. -/
def demoBlock (f : DemoFn) : String :=
  "📊 **" ++ f.name ++ "関数**\n" ++ f.description ++ "\n構文: `" ++
    f.fnSyntax ++ "`\n\n"

/-- POST /api/chat/message of the demo server variant: lower-case the
message, filter the function list, and concatenate one block per match
(or the fixed not-found reply). -/
def demoChatMessage (message : String) : DemoChatResult :=
  if jsTruthy message = false then DemoChatResult.badRequest
  else
    let lowerMessage := lowerL message.data
    let related := demoExcelFunctions.filter (demoMatches lowerMessage)
    let response :=
      "Excel専門チャットボットです。\n\n" ++
        (if 0 < related.length then
          "関連する情報を見つけました：\n\n" ++
            String.join (related.map demoBlock)
        else demoNotFoundText)
    DemoChatResult.ok response related.length

/-- The response text of a demo chat result (empty for the 400 case). -/
def demoResponseText : DemoChatResult → String
  | DemoChatResult.badRequest => ""
  | DemoChatResult.ok r _ => r

/-! ## Concrete inputs named in the claims -/

/-- The SUM entry's syntax string named by the round-trip claim. -/
def sumSyntaxString : String := "SUM(number1, [number2], ...)"

/-- The Japanese round-trip query. -/
def msgSumJa : String := "SUM関数の使い方"

/-- The English round-trip query. -/
def msgSumEn : String := "how to use SUM"

/-- The out-of-domain query named by the domain-gate claim. -/
def msgWeather : String := "what is the weather today"

/-! ## Further auxiliary definitions used by the theorems below -/

/-- HTTP status of a demo chat post result: 400 or 200. -/
def postStatus : PostResult → Nat
  | PostResult.badRequest => 400
  | PostResult.ok _ _ _ => 200

/-- The user state after a sequence of failed login attempts with a wrong
password at the given times, starting from a fresh verified account. -/
def afterFails (pw wrong : String) (ts : List Nat) : UserState :=
  ts.foldl (fun s t => (loginStep s wrong t).2) (mkUser pw)

/-- A user who exhausted the daily limit on day 0: role user, base limit
100, counter at 100, last reset on day 0. -/
def stuckUser : UserState :=
  { password := "demo123", role := Role.user, isActive := true,
    isEmailVerified := true, questionsAsked := 100, dailyLimit := 100,
    lastResetDay := 0 }

/-- A knowledge-base search stand-in returning no results. -/
def zeroSearch : String → Nat := fun _ => 0

/-- A token verifier stand-in accepting every token, to show rejection of
an absent token does not depend on the verifier. -/
def trueVerify : String → String → Bool := fun _ _ => true

/-- A stand-in for the reply generator ExcelAI.generateResponse: the chat
history claims do not depend on the reply content. -/
def demoAi : String → String × List String × Option String :=
  fun _ => ("demo reply", [], none)

/-- Concrete password used by witnesses. -/
def demoPassword : String := "demo123"

/-- Concrete correct password for the lockout witness. -/
def pwRight : String := "correct1"

/-- Concrete wrong password for the lockout witness. -/
def pwWrong : String := "wrong1"

/-- Concrete taken username for the registration witnesses. -/
def uAbc : String := "abc"

/-- Concrete too-short password. -/
def pwShort : String := "x"

/-- Concrete valid password for the registration witnesses. -/
def pwLong : String := "secret99"

/-- Concrete stored user id. -/
def idOne : String := "id1"

/-- Concrete fresh user id. -/
def idTwo : String := "id2"

/-- Concrete stored demo user record. -/
def baseUser : SimpleUser :=
  { uid := idOne, username := uAbc, password := pwLong }

/-- Concrete demo users store holding baseUser. -/
def storeAbc : UsersMap := [(idOne, baseUser)]

/-- Concrete fresh username for the hardened-registration counterexample. -/
def regUsername : String := "newuser"

/-- Concrete fresh email for the hardened-registration counterexample. -/
def regEmail : String := "new@example.com"

/-- Concrete password for the hardened-registration counterexample. -/
def regPassword : String := "Str0ngPass!"

/-- Concrete logged-in user id for the CSRF counterexample. -/
def demoUserId : String := "demo-user-001"

/-- Concrete unsafe request carrying a valid session cookie but no CSRF
token. -/
def postReq : ApiRequest :=
  { method := "POST", sessionUserId := some demoUserId }

/-- Concrete fresh CSRF secret stand-in. -/
def freshS : String := "fresh-secret"

/-! ## Helper lemmas about the association maps -/

/-- Looking up a key after deleting it yields nothing. -/
theorem amGet_amDel {β : Type} (m : List (String × β)) (k : String) :
    amGet (amDel m k) k = none := by
  induction m with
  | nil => rfl
  | cons kv rest ih =>
      obtain ⟨k2, v⟩ := kv
      by_cases h : k2 = k
      · simpa [amDel, h] using ih
      · simpa [amDel, amGet, h] using ih

/-- Deleting a key twice equals deleting it once. -/
theorem amDel_amDel {β : Type} (m : List (String × β)) (k : String) :
    amDel (amDel m k) k = amDel m k := by
  induction m with
  | nil => rfl
  | cons kv rest ih =>
      obtain ⟨k2, v⟩ := kv
      by_cases h : k2 = k
      · simpa [amDel, h] using ih
      · simp [amDel, h, ih]

/-- Looking up a key right after setting it yields the stored value. -/
theorem amGet_amSet {β : Type} (m : List (String × β)) (k : String) (v : β) :
    amGet (amSet m k v) k = some v := by
  induction m with
  | nil => simp [amSet, amGet]
  | cons kv rest ih =>
      obtain ⟨k2, v2⟩ := kv
      by_cases h : k2 = k
      · simp [amSet, amGet, h]
      · simp [amSet, amGet, h, ih]

/-- The second-to-last element of an appended pair survives the
most-recent-100 trim of the chat history. -/
theorem mem_trim_append {α : Type} (h0 : List α) (u b : α) :
    u ∈ (if 100 < (h0 ++ [u, b]).length then
      (h0 ++ [u, b]).drop ((h0 ++ [u, b]).length - 100) else h0 ++ [u, b]) := by
  by_cases h : 100 < (h0 ++ [u, b]).length
  · rw [if_pos h]
    have hlen : (h0 ++ [u, b]).length = h0.length + 2 := by simp
    have hk : (h0 ++ [u, b]).length - 100 ≤ h0.length := by omega
    rw [List.drop_append_of_le_length hk]
    simp
  · rw [if_neg h]
    simp

/-! ## Claim theorems -/

/-- C8: for every user state reachable through the model's operations, the
isLocked predicate holds exactly when lockUntil is set and strictly in the
future. -/
theorem isLocked_iff_lockUntil_future
    (u : UserState) (_hr : Reachable u) (now : Nat) :
    isLocked u now = true ↔ ∃ t, u.lockUntil = some t ∧ now < t := by
  cases hu : u.lockUntil with
  | none => simp [isLocked, hu]
  | some t => simp [isLocked, hu]

/-- Witness for C8: the invariant instantiated at a freshly verified
account and time 0. -/
theorem isLocked_iff_lockUntil_future_witness :
    isLocked (mkUser demoPassword) 0 = true ↔
      ∃ t, (mkUser demoPassword).lockUntil = some t ∧ 0 < t :=
  isLocked_iff_lockUntil_future (mkUser demoPassword)
    (Reachable.verifyEmail (Reachable.register demoPassword)) 0

/-- C9: deleting the chat history then reading it yields the empty list
with status 200, and repeating the delete is a no-op that still answers
200 and leaves the history empty. -/
theorem delete_history_idempotent (hist : HistMap) (sid : Option String) :
    getHistory (deleteHistory hist sid).2 sid = (200, []) ∧
    (deleteHistory hist sid).1 = 200 ∧
    deleteHistory (deleteHistory hist sid).2 sid =
      (200, (deleteHistory hist sid).2) := by
  refine ⟨?_, rfl, ?_⟩
  · simp [getHistory, deleteHistory, amGet_amDel]
  · simp [deleteHistory, amDel_amDel]

/-- C10: requests without a logged-in session resolve to the shared
identity guest, so one anonymous client's posted message is visible in
another anonymous client's history read, and one anonymous client's
delete empties the history read by the other. -/
theorem anonymous_requests_share_guest_identity
    (ai : String → String × List String × Option String) (hist : HistMap)
    (s1 s2 : Option String) (msg : String) (now : Nat)
    (h1 : s1 = none) (h2 : s2 = none) (hm : jsTruthy msg = true) :
    identityOf s1 = "guest" ∧ identityOf s2 = "guest" ∧
    ({ mid := now, mtype := "user", message := msg } : ChatMsg) ∈
      (getHistory (postChatMessage ai hist s1 msg now).2 s2).2 ∧
    getHistory (deleteHistory (postChatMessage ai hist s1 msg now).2 s1).2 s2 =
      (200, []) := by
  subst h1; subst h2
  refine ⟨rfl, rfl, ?_, ?_⟩
  · simp only [postChatMessage, hm, Bool.true_eq_false, if_false,
      getHistory, identityOf, amGet_amSet, Option.getD_some]
    exact mem_trim_append _ _ _
  · simp [postChatMessage, hm, getHistory, deleteHistory, identityOf,
      amGet_amDel]

/-- Witness for C10: a guest post of the Japanese SUM query into an empty
store is visible to, and erasable by, another anonymous request. -/
theorem anonymous_requests_share_guest_identity_witness :
    identityOf none = "guest" ∧
    ({ mid := 0, mtype := "user", message := msgSumJa } : ChatMsg) ∈
      (getHistory (postChatMessage demoAi [] none msgSumJa 0).2 none).2 ∧
    getHistory
      (deleteHistory (postChatMessage demoAi [] none msgSumJa 0).2 none).2
      none = (200, []) :=
  ⟨(anonymous_requests_share_guest_identity demoAi [] none none msgSumJa 0
      rfl rfl (by decide)).1,
   (anonymous_requests_share_guest_identity demoAi [] none none msgSumJa 0
      rfl rfl (by decide)).2.2.1,
   (anonymous_requests_share_guest_identity demoAi [] none none msgSumJa 0
      rfl rfl (by decide)).2.2.2⟩

/-- C2: a chat message containing no Excel-domain keyword is rejected by
the domain gate with the fixed out-of-domain message (never a knowledge
answer), and the weather question contains no such keyword. -/
theorem chat_domain_gate (search : String → Nat) (u : UserState)
    (message : String) (today : Nat)
    (hq : canAskQuestion u = true) (hk : hasExcelKeywords message = false) :
    chatMessageRoute search u message today =
      (ChatOutcome.outOfDomain outOfDomainMessage, u) ∧
    hasExcelKeywords msgWeather = false := by
  constructor
  · simp [chatMessageRoute, hq, hk]
  · decide

/-- Witness for C2: the weather question against a fresh user with an
empty knowledge base is answered by the out-of-domain rejection. -/
theorem chat_domain_gate_witness :
    canAskQuestion (mkUser demoPassword) = true ∧
    chatMessageRoute zeroSearch (mkUser demoPassword) msgWeather 0 =
      (ChatOutcome.outOfDomain outOfDomainMessage, mkUser demoPassword) :=
  ⟨by decide,
   (chat_domain_gate zeroSearch (mkUser demoPassword) msgWeather 0
     (by decide) (by decide)).1⟩

/-- C6: the demo responder's reply to the Japanese query SUM関数の使い方 and
to the English query how to use SUM contains the SUM entry's syntax
string. -/
theorem respond_sum_includes_syntax :
    containsSub sumSyntaxString.data
      (demoResponseText (demoChatMessage msgSumJa)).data = true ∧
    containsSub sumSyntaxString.data
      (demoResponseText (demoChatMessage msgSumEn)).data = true := by
  constructor
  · decide
  · decide

/-- C4 counterexample: on the demo server an unsafe-method request (POST
/api/chat/message) carrying a valid session cookie but no CSRF token is
processed normally with status 200 and mutates the chat history: the
route handler runs, no 403 is issued. -/
theorem csrf_demo_counterexample :
    postStatus (postChatMessage demoAi [] (some demoUserId) msgSumJa 0).1 = 200 ∧
    (postChatMessage demoAi [] (some demoUserId) msgSumJa 0).2 ≠ [] := by
  constructor
  · decide
  · decide

/-- C4 (amended): the csrfProtection middleware, as mounted on /api in
server.js, rejects every unsafe-method request whose token is absent or
fails verification against the session's CSRF secret with 403 Forbidden,
regardless of the session user; the forbidden result means the route
handler does not run. -/
theorem csrfProtection_rejects_unsafe_without_token
    (verify : String → String → Bool) (freshSecret : String)
    (req : ApiRequest)
    (hu : safeMethods.contains req.method = false)
    (ht : csrfTokenValid verify freshSecret req = false) :
    csrfProtection verify freshSecret req = CsrfResult.forbidden := by
  have g1 : ¬ (safeMethods.contains req.method = true) := by rw [hu]; simp
  have g2 : ¬ (csrfTokenValid verify freshSecret req = true) := by
    rw [ht]; simp
  unfold csrfProtection
  rw [if_neg g1, if_neg g2]

/-- Witness for the amended C4: a POST request with a session cookie and
no token is forbidden even under a verifier that accepts everything. -/
theorem csrfProtection_rejects_unsafe_without_token_witness :
    safeMethods.contains postReq.method = false ∧
    csrfProtection trueVerify freshS postReq = CsrfResult.forbidden :=
  ⟨by decide,
   csrfProtection_rejects_unsafe_without_token trueVerify freshS postReq
     (by decide) (by decide)⟩

/-- C5 counterexample: a registration attempt whose username is already
taken but whose password fails validation is answered with 400, not 409
Conflict. -/
theorem register_conflict_counterexample :
    usernameTaken storeAbc uAbc = true ∧
    registerStatus
      (registerSimple storeAbc {} uAbc pwShort none idTwo 0).1 = 400 := by
  constructor
  · decide
  · decide

/-- C5 (amended): a registration attempt with a taken username never
changes the users store or the session, and when the attempt passes input
validation (username and password present, username at least 3 characters,
password at least 6) it is answered with 409 Conflict. -/
theorem register_duplicate_username (users : UsersMap)
    (session : SimpleSession) (username password : String)
    (email : Option String) (newId : String) (now : Nat)
    (ht : usernameTaken users username = true) :
    (registerSimple users session username password email newId now).2.1 =
      users ∧
    (registerSimple users session username password email newId now).2.2 =
      session ∧
    (jsTruthy username = true → jsTruthy password = true →
      3 ≤ username.data.length → 6 ≤ password.data.length →
      (registerSimple users session username password email newId now).1 =
        RegisterResult.conflict msgConflict) := by
  unfold registerSimple
  split_ifs with h1 h2 h3
  · exact ⟨rfl, rfl, by intro hu hp _ _; simp [hu, hp] at h1⟩
  · exact ⟨rfl, rfl, by intro _ _ hl _; omega⟩
  · exact ⟨rfl, rfl, by intro _ _ _ hl; omega⟩
  · exact ⟨rfl, rfl, fun _ _ _ _ => rfl⟩

/-- Witness for the amended C5: registering the taken username abc with a
valid password leaves the store and session unchanged and answers 409. -/
theorem register_duplicate_username_witness :
    usernameTaken storeAbc uAbc = true ∧
    (registerSimple storeAbc {} uAbc pwLong none idTwo 0).2.1 = storeAbc ∧
    (registerSimple storeAbc {} uAbc pwLong none idTwo 0).1 =
      RegisterResult.conflict msgConflict :=
  ⟨by decide,
   (register_duplicate_username storeAbc {} uAbc pwLong none idTwo 0
     (by decide)).1,
   (register_duplicate_username storeAbc {} uAbc pwLong none idTwo 0
     (by decide)).2.2 (by decide) (by decide) (by decide) (by decide)⟩

/-- C7 counterexample: the hardened register route answers a successful
registration with 201 and verificationRequired, but never writes to the
session: immediately afterwards the session is still anonymous, so the
system did not auto-authenticate the new user. -/
theorem auth_register_no_auto_login :
    (authRegister [] regUsername regEmail regPassword none).1 =
      AuthRegisterResult.created true ∧
    (authRegister [] regUsername regEmail regPassword none).2.2 = none := by
  constructor
  · decide
  · decide

/-- C7 (amended): on the demo server every successful registration
auto-authenticates: the session is logged in under the fresh id and GET
/api/auth/me immediately returns the newly created user. -/
theorem registerSimple_auto_authenticates (users : UsersMap)
    (session : SimpleSession) (username password : String)
    (email : Option String) (newId : String) (now : Nat)
    (hu : jsTruthy username = true) (hp : jsTruthy password = true)
    (h3 : 3 ≤ username.data.length) (h6 : 6 ≤ password.data.length)
    (hta : usernameTaken users username = false)
    (hni : jsTruthy newId = true) :
    (registerSimple users session username password email newId now).1 =
      RegisterResult.created (mkSimpleUser username password email newId now) ∧
    (registerSimple users session username password email newId now).2.2.userId
      = some newId ∧
    authMe (registerSimple users session username password email newId now).2.1
      (registerSimple users session username password email newId now).2.2 =
      some (mkSimpleUser username password email newId now) := by
  have hv1 : ¬ (jsTruthy username = false || jsTruthy password = false) = true := by
    simp [hu, hp]
  have hv2 : ¬ username.data.length < 3 := by omega
  have hv3 : ¬ password.data.length < 6 := by omega
  have hv4 : ¬ usernameTaken users username = true := by simp [hta]
  unfold registerSimple
  rw [if_neg hv1, if_neg hv2, if_neg hv3, if_neg hv4]
  refine ⟨rfl, rfl, ?_⟩
  simp [authMe, hni, amGet_amSet]

/-- Witness for the amended C7: registering newuser on an empty store
logs the session in and authMe returns the created record. -/
theorem registerSimple_auto_authenticates_witness :
    usernameTaken ([] : UsersMap) regUsername = false ∧
    (registerSimple [] {} regUsername pwLong none idTwo 0).1 =
      RegisterResult.created (mkSimpleUser regUsername pwLong none idTwo 0) ∧
    authMe (registerSimple [] {} regUsername pwLong none idTwo 0).2.1
      (registerSimple [] {} regUsername pwLong none idTwo 0).2.2 =
      some (mkSimpleUser regUsername pwLong none idTwo 0) :=
  ⟨by decide,
   (registerSimple_auto_authenticates [] {} regUsername pwLong none idTwo 0
     (by decide) (by decide) (by decide) (by decide) (by decide)
     (by decide)).1,
   (registerSimple_auto_authenticates [] {} regUsername pwLong none idTwo 0
     (by decide) (by decide) (by decide) (by decide) (by decide)
     (by decide)).2.2⟩

/-- C1: starting from a fresh, active, email-verified account, four
consecutive failed logins leave no lock; the fifth failed attempt at time
t5 answers 401 and sets lockUntil to t5 plus two hours; while the lock is
in effect every attempt with any password answers 423 and changes
nothing; once the lock interval has elapsed, a correct-password login
succeeds and resets the failure counter to zero and clears the lock. -/
theorem login_lockout (pw wrong : String) (hw : wrong ≠ pw)
    (t1 t2 t3 t4 t5 t6 t7 : Nat) (pw6 : String)
    (h6 : t6 < t5 + 7200000) (h7 : t5 + 7200000 ≤ t7) :
    (afterFails pw wrong [t1, t2, t3, t4]).lockUntil = none ∧
    (afterFails pw wrong [t1, t2, t3, t4]).loginAttempts = 4 ∧
    (loginStep (afterFails pw wrong [t1, t2, t3, t4]) wrong t5).1 =
      LoginResult.authenticationFailed ∧
    (afterFails pw wrong [t1, t2, t3, t4, t5]).lockUntil =
      some (t5 + 7200000) ∧
    loginStep (afterFails pw wrong [t1, t2, t3, t4, t5]) pw6 t6 =
      (LoginResult.accountLocked, afterFails pw wrong [t1, t2, t3, t4, t5]) ∧
    (loginStep (afterFails pw wrong [t1, t2, t3, t4, t5]) pw t7).1 =
      LoginResult.success ∧
    (loginStep (afterFails pw wrong [t1, t2, t3, t4, t5]) pw t7).2.loginAttempts
      = 0 ∧
    (loginStep (afterFails pw wrong [t1, t2, t3, t4, t5]) pw t7).2.lockUntil
      = none := by
  have h4 : afterFails pw wrong [t1, t2, t3, t4] =
      { password := pw, isEmailVerified := true, loginAttempts := 4 } := by
    simp [afterFails, loginStep, mkUser, incLoginAttempts,
      incLoginAttemptsCore, isLocked, hw]
  have h5 : afterFails pw wrong [t1, t2, t3, t4, t5] =
      { password := pw, isEmailVerified := true, loginAttempts := 5,
        lockUntil := some (t5 + 7200000) } := by
    have : afterFails pw wrong [t1, t2, t3, t4, t5] =
        (loginStep (afterFails pw wrong [t1, t2, t3, t4]) wrong t5).2 := by
      simp [afterFails]
    rw [this, h4]
    simp [loginStep, incLoginAttempts, incLoginAttemptsCore, isLocked, hw]
  have hnl7 : ¬ t7 < t5 + 7200000 := by omega
  refine ⟨by rw [h4], by rw [h4], ?_, by rw [h5], ?_, ?_, ?_, ?_⟩
  · rw [h4]; simp [loginStep, isLocked, hw]
  · rw [h5]; simp [loginStep, isLocked, h6]
  · rw [h5]; simp [loginStep, isLocked, hnl7, resetLoginAttempts]
  · rw [h5]; simp [loginStep, isLocked, hnl7, resetLoginAttempts]
  · rw [h5]; simp [loginStep, isLocked, hnl7, resetLoginAttempts]

/-- Witness for C1: the lockout sequence at concrete times 10..50, a
locked attempt at time 60 and a successful login at the lock expiry. -/
theorem login_lockout_witness :
    (afterFails pwRight pwWrong [10, 20, 30, 40]).lockUntil = none ∧
    (afterFails pwRight pwWrong [10, 20, 30, 40]).loginAttempts = 4 ∧
    (loginStep (afterFails pwRight pwWrong [10, 20, 30, 40]) pwWrong 50).1 =
      LoginResult.authenticationFailed ∧
    (afterFails pwRight pwWrong [10, 20, 30, 40, 50]).lockUntil =
      some (50 + 7200000) ∧
    loginStep (afterFails pwRight pwWrong [10, 20, 30, 40, 50]) pwRight 60 =
      (LoginResult.accountLocked,
        afterFails pwRight pwWrong [10, 20, 30, 40, 50]) ∧
    (loginStep (afterFails pwRight pwWrong [10, 20, 30, 40, 50]) pwRight
      7200050).1 = LoginResult.success ∧
    (loginStep (afterFails pwRight pwWrong [10, 20, 30, 40, 50]) pwRight
      7200050).2.loginAttempts = 0 ∧
    (loginStep (afterFails pwRight pwWrong [10, 20, 30, 40, 50]) pwRight
      7200050).2.lockUntil = none :=
  login_lockout pwRight pwWrong (by decide) 10 20 30 40 50 60 7200050
    pwRight (by decide) (by decide)

/-- C3 (code bug): a user whose counter reached the base daily limit on
day 0 is answered 429 by the chat route on every later day as well,
because the day-boundary reset lives only inside incrementUsage, which the
route never calls once canAskQuestion is false; incrementUsage itself
would reset the counter on a day change (so the same user could ask again
had the reset run), matching the advertised daily semantics the endpoint
fails to deliver. -/
theorem usage_limit_never_resets :
    (∀ search today message,
      chatMessageRoute search stuckUser message today =
        (ChatOutcome.rateLimited, stuckUser)) ∧
    canAskQuestion stuckUser = false ∧
    (incrementUsage stuckUser 1).questionsAsked = 1 ∧
    canAskQuestion (incrementUsage stuckUser 1) = true := by
  have hc : canAskQuestion stuckUser = false := by decide
  refine ⟨?_, hc, by decide, by decide⟩
  intro search today message
  simp [chatMessageRoute, hc]

end ExcelChatbot
